import Mathlib

/-!
Shallow embedding of the request middleware in handlers/mw.go: the auth
filters (loggedIn, loggedInOrPublic, noSubSites), the addctx middleware
with its /status short-circuit, path-dependent timeout budget, deferred
deadline guard, debug-explain instrumentation and site resolution with the
single-site development fallback.
-/

namespace GoatCounter

/-- Tenant record ("Site") as used by mw.go: optional parent reference,
public-visibility flag (Settings.Public) and the admin capability. -/
structure Site where
  id : Int
  parent : Option Int
  public : Bool
  admin : Bool
  deriving Repr, DecidableEq

/-- Principal record ("User"); goatcounter.GetUser may return no user
(a nil pointer), modelled by Option. -/
structure User where
  id : Int
  deriving Repr, DecidableEq

/-- Outcome of an auth filter: pass through, redirect (a guru error whose
code is a 3xx, after a flash message), or abort with an HTTP status. -/
inductive FilterResult where
  | pass
  | redirect (code : Nat) (target : String) (flash : String)
  | abort (code : Nat) (msg : String) (logged : Bool)
  deriving Repr, DecidableEq

/-- The shared redirect helper in mw.go: flashes "Need to log in" and
returns guru.Errorf 303 "/user/new". -/
def redirectResult : FilterResult := .redirect 303 ("/user/new") ("Need to log in")

/-- The loggedIn filter: passes when a user is present with positive ID. -/
def loggedIn (u : Option User) : FilterResult :=
  if (match u with | some x => decide (x.id > 0) | none => false) then .pass
  else redirectResult

/-- The loggedInOrPublic filter: passes when a user is present with
positive ID, or the current site has Settings.Public set. -/
def loggedInOrPublic (u : Option User) (s : Site) : FilterResult :=
  if (match u with | some x => decide (x.id > 0) | none => false) || s.public then .pass
  else redirectResult

/-- The noSubSites filter: passes when the site has no parent reference or
a zero one; otherwise logs and aborts with guru.Errorf 403. -/
def noSubSites (s : Site) : FilterResult :=
  if (match s.parent with | none => true | some p => decide (p = 0)) then .pass
  else .abort 403 ("child sites can\x27t access this") true

/-- Store lookup errors: sql no-rows (zdb.ErrNoRows) versus any other
database error. -/
inductive LookupErr where
  | noRows
  | internal (msg : String)
  deriving Repr, DecidableEq

/-- Model of strings.HasPrefix: the second string is a prefix of the
first (byte-wise in Go; character-wise here, equivalent on UTF-8). -/
def hasPre (s p : String) : Bool := p.data.isPrefixOf s.data

/-- Timeout budget selection in addctx: default 3, 120 for paths with
prefix "/admin", 11 for exactly the root path, in that switch order. -/
def timeoutBudget (path : String) : Nat :=
  if hasPre path ("/admin") then 120
  else if path = "/" then 11
  else 3

/-- The deferred deadline guard in addctx. Inputs: whether ctx.Err() is
context.DeadlineExceeded after the handler returned, whether the
ResponseWriter implements the statusWriter interface, and the status it
reports (0 when no status has been written). Result: the (status, body)
pair the guard writes, if any. -/
def deadlineGuard (deadlineExceeded : Bool) (hasStatusIface : Bool) (writtenStatus : Nat) :
    Option (Nat × String) :=
  if deadlineExceeded then
    if !hasStatusIface || writtenStatus == 0 then some (504, "Server timed out")
    -- the !ok branch of the statusWriter type assertion also writes
    else none
  else none

/-- Result of s.ByHost combined with the development fallback: outside
production mode, a successful sites.UnscopedList of exactly one site
replaces whatever the host lookup produced (site and error alike); any
other listing outcome leaves the host lookup result unchanged. -/
def effectiveLookup (prod : Bool) (bh : Except LookupErr Site)
    (us : Except LookupErr (List Site)) : Except LookupErr Site :=
  if prod then bh
  else
    match us with
    | .ok [s1] => .ok s1
    | _ => bh

/-- Result of the load-site block of addctx: either a site bound into the
request context, or an error page. -/
inductive SiteResolution where
  | bound (s : Site)
  | failPage (status : Nat) (msg : String) (logged : Bool)
  deriving Repr, DecidableEq

/-- Error mapping of the load-site block: no-rows becomes guru.Errorf 400
naming the host (not logged); any other error is logged and handed to
zhttp.ErrPage, which renders a plain error as a 500. The %q verb is
modelled as surrounding the host with double quotes. -/
def resolveSite (prod : Bool) (host : String) (bh : Except LookupErr Site)
    (us : Except LookupErr (List Site)) : SiteResolution :=
  match effectiveLookup prod bh us with
  | .ok s => .bound s
  | .error .noRows => .failPage 400 ("no site at this domain (\"" ++ (host ++ "\")")) false
  | .error (.internal m) => .failPage 500 m true

/-- Process environment of addctx: cfg.Prod, the loadSite argument, the
values serialized by /status, the JSON marshaller (abstract, since
json.Marshal is an external collaborator), the store lookups and whether
the db handle implements zdb.DBCloser. Field order: prod, loadSite,
uptime, version, lastPersisted, marshal, byHost, unscoped, dbIsCloser. -/
structure Env where
  prod : Bool
  loadSite : Bool
  uptime : String
  version : String
  lastPersisted : String
  marshal : List (String × String) → Except String String
  byHost : String → Except LookupErr Site
  unscoped : Except LookupErr (List Site)
  dbIsCloser : Bool

/-- Inbound request data used by addctx: URL path, Host header, and the
value of the debug-explain cookie when present. -/
structure Request where
  path : String
  host : String
  debugExplain : Option String
  deriving Repr, DecidableEq

/-- Outcome of one request through addctx, up to invoking the downstream
handler: a /status response, an error page, a panic from the unchecked
DBCloser assertion, or the downstream handler invoked with the bound site,
the selected deadline budget and whether the db handle was wrapped by the
explain instrumentation. -/
inductive Outcome where
  | statusResp (status : Nat) (contentType : Option String) (body : String)
  | errPage (status : Nat) (msg : String) (logged : Bool)
  | panicked
  | handler (site : Option Site) (deadline : Nat) (instrumented : Bool)
  deriving Repr, DecidableEq

/-- The key-value pairs marshalled by the /status branch of addctx, in the
order they appear in the map literal. -/
def statusFields (e : Env) : List (String × String) :=
  [("uptime", e.uptime), ("version", e.version), ("last_persisted_at", e.lastPersisted)]

/-- One-request semantics of the addctx middleware. The /status path is
answered before the timeout, the store binding and the site lookup. The
debug-explain cookie (honoured only outside production) triggers an
unchecked type assertion db.(zdb.DBCloser) on the store handle, which
panics when the handle lacks that interface. When loadSite is set, a
failing site resolution renders its error page and the downstream handler
is not invoked. -/
def addctx (e : Env) (r : Request) : Outcome :=
  if r.path = "/status" then
    match e.marshal (statusFields e) with
    | .error m => .statusResp 500 none m
    | .ok j => .statusResp 200 (some ("application/json")) j
  else
    let t := timeoutBudget r.path
    let wantExplain := !e.prod && r.debugExplain.isSome
    if wantExplain && !e.dbIsCloser then .panicked
    else if e.loadSite then
      match resolveSite e.prod r.host (e.byHost r.host) e.unscoped with
      | .failPage st m lg => .errPage st m lg
      | .bound s => .handler (some s) t wantExplain
    else .handler none t wantExplain

/-- Concrete root site used by witnesses. -/
def siteA : Site := ⟨1, none, false, false⟩

/-- Concrete child site used by witnesses. -/
def siteB : Site := ⟨2, some 1, true, false⟩

/-- Concrete marshaller that always succeeds, used by witnesses. -/
def okMarshal : List (String × String) → Except String String := fun _ => .ok ("j")

/-- Development environment with one listed site, used by witnesses. -/
def envDev : Env :=
  ⟨false, true, "1s", "v1", "t0", okMarshal, fun _ => .error .noRows, .ok [siteA], true⟩

/-- Production environment where no host matches, used by witnesses. -/
def envProdNoSite : Env :=
  ⟨true, true, "1s", "v1", "t0", okMarshal, fun _ => .error .noRows, .error .noRows, true⟩

/-- Production environment whose host lookup fails with a non-no-rows
error, used by witnesses. -/
def envInternalErr : Env :=
  ⟨true, true, "1s", "v1", "t0", okMarshal, fun _ => .error (.internal ("db down")),
    .error .noRows, true⟩

/-- Development environment whose db handle does not implement DBCloser,
used by witnesses. -/
def envNoCloser : Env :=
  ⟨false, false, "1s", "v1", "t0", okMarshal, fun _ => .error .noRows, .error .noRows, false⟩

/-- Development environment whose db handle implements DBCloser and with
loadSite disabled, used by witnesses. -/
def envCloser : Env :=
  ⟨false, false, "1s", "v1", "t0", okMarshal, fun _ => .error .noRows, .error .noRows, true⟩

/-- Helper: on every path other than "/status", addctx runs the timeout,
instrumentation and load-site stages. -/
theorem addctx_of_ne_status (e : Env) (r : Request) (h : r.path ≠ "/status") :
    addctx e r =
      (if (!e.prod && r.debugExplain.isSome) && !e.dbIsCloser then .panicked
       else if e.loadSite then
         match resolveSite e.prod r.host (e.byHost r.host) e.unscoped with
         | .failPage st m lg => .errPage st m lg
         | .bound s => .handler (some s) (timeoutBudget r.path) (!e.prod && r.debugExplain.isSome)
       else .handler none (timeoutBudget r.path) (!e.prod && r.debugExplain.isSome)) := by
  simp [addctx, h]

/-- Helper: when the explain branch does not panic and loadSite is set,
addctx reduces to the site resolution outcome. -/
theorem addctx_loadSite (e : Env) (r : Request) (hpath : r.path ≠ "/status")
    (hnp : ((!e.prod && r.debugExplain.isSome) && !e.dbIsCloser) = false)
    (hload : e.loadSite = true) :
    addctx e r =
      match resolveSite e.prod r.host (e.byHost r.host) e.unscoped with
      | .failPage st m lg => .errPage st m lg
      | .bound s =>
          .handler (some s) (timeoutBudget r.path) (!e.prod && r.debugExplain.isSome) := by
  rw [addctx_of_ne_status e r hpath]
  simp only [hnp, hload, Bool.false_eq_true, if_false, if_true]

/-- C1 counterexample: with the deadline exceeded and a response already
committed (status 200 written), a writer that does not implement the
statusWriter interface still receives the 504 and its body, contradicting
the claim that no 504 is written once a response is committed. -/
theorem deadlineGuard_writes_despite_commit :
    deadlineGuard true false 200 = some (504, "Server timed out") := rfl

/-- C1 (amended): after a deadline-exceeded completion, the guard writes
exactly 504 with body "Server timed out" iff the writer does not implement
the status interface or reports status 0 (nothing written); when the
writer implements the interface and reports a nonzero committed status,
nothing is written; without deadline exceeded, nothing is written. -/
theorem deadlineGuard_spec (iface : Bool) (st : Nat) :
    (deadlineGuard true iface st = some (504, "Server timed out") ↔
      iface = false ∨ st = 0) ∧
    (iface = true → st ≠ 0 → deadlineGuard true iface st = none) ∧
    deadlineGuard false iface st = none := by
  cases iface
  · simp [deadlineGuard]
  · by_cases h0 : st = 0 <;> simp [deadlineGuard, h0]

/-- C1 witness: with the interface present, a committed status 7 suppresses
the write, and status 0 yields the 504 pair. -/
theorem deadlineGuard_spec_witness :
    deadlineGuard true true 7 = none ∧
    deadlineGuard true true 0 = some (504, "Server timed out") :=
  ⟨(deadlineGuard_spec true 7).2.1 rfl (by decide),
   (deadlineGuard_spec true 0).1.mpr (Or.inr rfl)⟩

/-- C4: for every path other than the status path, the deadline budget is
120 when the path has prefix "/admin", 11 when it is exactly "/", and 3
for every other path. -/
theorem timeoutBudget_spec (p : String) (hp : p ≠ "/status") :
    (hasPre p ("/admin") = true → timeoutBudget p = 120) ∧
    (p = "/" → timeoutBudget p = 11) ∧
    (hasPre p ("/admin") = false → p ≠ "/" → timeoutBudget p = 3) := by
  refine ⟨fun h => by simp [timeoutBudget, h], fun h => by subst h; decide,
    fun h h2 => by simp [timeoutBudget, h, h2]⟩

/-- C4 witness: the three budget classes at concrete paths. -/
theorem timeoutBudget_spec_witness :
    timeoutBudget ("/admin/x") = 120 ∧ timeoutBudget ("/") = 11 ∧
    timeoutBudget ("/foo") = 3 :=
  ⟨(timeoutBudget_spec ("/admin/x") (by decide)).1 (by decide),
   (timeoutBudget_spec ("/") (by decide)).2.1 rfl,
   (timeoutBudget_spec ("/foo") (by decide)).2.2 (by decide) (by decide)⟩

/-- C7: when the principal is absent or has ID zero, loggedInOrPublic
passes iff the site's public-visibility flag is set; when it does not
pass, the outcome is a 303 redirect to the sign-in path with a flash
notice. -/
theorem loggedInOrPublic_spec (u : Option User) (s : Site)
    (h : u = none ∨ ∃ x, u = some x ∧ x.id = 0) :
    (loggedInOrPublic u s = .pass ↔ s.public = true) ∧
    (s.public = false →
      loggedInOrPublic u s = .redirect 303 ("/user/new") ("Need to log in")) := by
  rcases h with h | ⟨x, hx, hid⟩
  · subst h
    cases hpub : s.public <;> simp [loggedInOrPublic, redirectResult, hpub]
  · subst hx
    cases hpub : s.public <;> simp [loggedInOrPublic, redirectResult, hpub, hid]

/-- C7 witness: with no user, a public site passes and a private site
redirects. -/
theorem loggedInOrPublic_spec_witness :
    loggedInOrPublic none siteB = .pass ∧
    loggedInOrPublic none siteA = .redirect 303 ("/user/new") ("Need to log in") :=
  ⟨(loggedInOrPublic_spec none siteB (Or.inl rfl)).1.mpr rfl,
   (loggedInOrPublic_spec none siteA (Or.inl rfl)).2 rfl⟩

/-- C8: noSubSites aborts with 403 iff the site's parent reference is
present and nonzero, and passes iff the parent is absent or zero. -/
theorem noSubSites_spec (s : Site) :
    (noSubSites s = .abort 403 ("child sites can\x27t access this") true ↔
      ∃ p, s.parent = some p ∧ p ≠ 0) ∧
    (noSubSites s = .pass ↔ s.parent = none ∨ s.parent = some 0) := by
  rcases hp : s.parent with _ | p
  · simp [noSubSites, hp]
  · by_cases h0 : p = 0 <;> simp [noSubSites, hp, h0]

/-- C2: outside production with tenant loading enabled, when the unscoped
listing succeeds with exactly one site, resolution yields that sole site
for every host and every host-lookup outcome, no error page is rendered,
and the downstream handler receives it. -/
theorem soleTenant_resolution (e : Env) (r : Request) (s : Site)
    (hprod : e.prod = false) (hload : e.loadSite = true)
    (hus : e.unscoped = .ok [s]) (hpath : r.path ≠ "/status")
    (hdbg : r.debugExplain.isSome = true → e.dbIsCloser = true) :
    resolveSite e.prod r.host (e.byHost r.host) e.unscoped = .bound s ∧
    addctx e r = .handler (some s) (timeoutBudget r.path)
      (!e.prod && r.debugExplain.isSome) := by
  have hres : resolveSite e.prod r.host (e.byHost r.host) e.unscoped = .bound s := by
    rw [hprod, hus]
    rfl
  have hnp : ((!e.prod && r.debugExplain.isSome) && !e.dbIsCloser) = false := by
    cases hdb : r.debugExplain.isSome
    · simp [hdb]
    · simp [hdbg hdb]
  refine ⟨hres, ?_⟩
  rw [addctx_loadSite e r hpath hnp hload, hres]

/-- C2 witness: in the development environment with one listed site and a
mismatching host, the handler runs with that site. -/
theorem soleTenant_resolution_witness :
    addctx envDev ⟨"/x", "nohost", none⟩ = .handler (some siteA) 3 false := by
  have h := soleTenant_resolution envDev ⟨"/x", "nohost", none⟩ siteA rfl rfl rfl
    (by decide) (fun _ => rfl)
  exact h.2.trans (by decide)

/-- C3: with tenant loading enabled, when the effective lookup fails with
an error other than no-rows, addctx renders a 500 error page with the
error logged and never invokes the downstream handler. -/
theorem internalError_aborts (e : Env) (r : Request) (m : String)
    (hload : e.loadSite = true) (hpath : r.path ≠ "/status")
    (hdbg : r.debugExplain.isSome = true → e.prod = true ∨ e.dbIsCloser = true)
    (herr : effectiveLookup e.prod (e.byHost r.host) e.unscoped =
      .error (.internal m)) :
    addctx e r = .errPage 500 m true ∧ ∀ s t b, addctx e r ≠ .handler s t b := by
  have hres : resolveSite e.prod r.host (e.byHost r.host) e.unscoped =
      .failPage 500 m true := by
    simp [resolveSite, herr]
  have hnp : ((!e.prod && r.debugExplain.isSome) && !e.dbIsCloser) = false := by
    cases hdb : r.debugExplain.isSome
    · simp [hdb]
    · rcases hdbg hdb with hp | hc
      · simp [hp]
      · simp [hc]
  have hmain : addctx e r = .errPage 500 m true := by
    rw [addctx_loadSite e r hpath hnp hload, hres]
  exact ⟨hmain, fun s t b h => Outcome.noConfusion (hmain.symm.trans h)⟩

/-- C3 witness: a production environment whose lookup reports a non-no-rows
error renders the 500 page with the message logged. -/
theorem internalError_aborts_witness :
    addctx envInternalErr ⟨"/x", "h", none⟩ = .errPage 500 ("db down") true :=
  (internalError_aborts envInternalErr ⟨"/x", "h", none⟩ ("db down") rfl (by decide)
    (fun _ => Or.inl rfl) rfl).1

/-- C5: in production with tenant loading enabled, a host matching no site
yields a 400 error page whose message contains the submitted host (not
logged), and the downstream handler is never invoked. -/
theorem tenantNotFound_prod (e : Env) (r : Request)
    (hprod : e.prod = true) (hload : e.loadSite = true) (hpath : r.path ≠ "/status")
    (hnf : e.byHost r.host = .error .noRows) :
    addctx e r = .errPage 400 ("no site at this domain (\"" ++ (r.host ++ "\")")) false ∧
    (∃ pre post,
      ("no site at this domain (\"" ++ (r.host ++ "\")")) = pre ++ (r.host ++ post)) ∧
    ∀ s t b, addctx e r ≠ .handler s t b := by
  have hres : resolveSite e.prod r.host (e.byHost r.host) e.unscoped =
      .failPage 400 ("no site at this domain (\"" ++ (r.host ++ "\")")) false := by
    simp [resolveSite, effectiveLookup, hprod, hnf]
  have hnp : ((!e.prod && r.debugExplain.isSome) && !e.dbIsCloser) = false := by
    simp [hprod]
  have hmain : addctx e r =
      .errPage 400 ("no site at this domain (\"" ++ (r.host ++ "\")")) false := by
    rw [addctx_loadSite e r hpath hnp hload, hres]
  exact ⟨hmain, ⟨"no site at this domain (\"", "\")", rfl⟩,
    fun s t b h => Outcome.noConfusion (hmain.symm.trans h)⟩

/-- C5 witness: a concrete unmatched host in production gets the 400 page
naming it. -/
theorem tenantNotFound_prod_witness :
    addctx envProdNoSite ⟨"/x", "evil.example", none⟩ =
      .errPage 400 ("no site at this domain (\"evil.example\")") false :=
  (tenantNotFound_prod envProdNoSite ⟨"/x", "evil.example", none⟩ rfl rfl
    (by decide) rfl).1.trans (by decide)

/-- C6: the status path is answered before the timeout, store binding and
tenant resolution: the marshalled map has exactly the fields uptime,
version and last_persisted_at; success yields 200 with application/json
and the marshalled body; marshal failure yields 500 with the raw error
text; and the outcome is unchanged under any variation of the production
flag, tenant loading, store lookups and DBCloser capability. -/
theorem statusEndpoint_spec (e : Env) (r : Request) (h : r.path = "/status") :
    (statusFields e).map Prod.fst = ["uptime", "version", "last_persisted_at"] ∧
    (∀ j, e.marshal (statusFields e) = Except.ok j →
      addctx e r = .statusResp 200 (some ("application/json")) j) ∧
    (∀ m, e.marshal (statusFields e) = Except.error m →
      addctx e r = .statusResp 500 none m) ∧
    (∀ e2 : Env, e2.uptime = e.uptime → e2.version = e.version →
      e2.lastPersisted = e.lastPersisted → e2.marshal = e.marshal →
      addctx e2 r = addctx e r) := by
  refine ⟨rfl, fun j hj => ?_, fun m hm => ?_, fun e2 h1 h2 h3 h4 => ?_⟩
  · simp [addctx, h, hj]
  · simp [addctx, h, hm]
  · have hsf : statusFields e2 = statusFields e := by simp [statusFields, h1, h2, h3]
    simp [addctx, h, hsf, h4]

/-- C6 witness: the status request in the development environment returns
200 application/json with the marshalled body. -/
theorem statusEndpoint_spec_witness :
    addctx envDev ⟨"/status", "h", none⟩ =
      .statusResp 200 (some ("application/json")) ("j") :=
  (statusEndpoint_spec envDev ⟨"/status", "h", none⟩ rfl).2.1 ("j") rfl

/-- C9: outside production, a successful unscoped listing of exactly one
site replaces the host-lookup result even when that lookup succeeded with
a different site; every other listing outcome (failure, empty, two or
more) leaves the host-lookup result in force. -/
theorem soleTenant_fallback_shape (bh : Except LookupErr Site)
    (us : Except LookupErr (List Site)) :
    (∀ s1, us = .ok [s1] → effectiveLookup false bh us = .ok s1) ∧
    ((∀ s1, us ≠ .ok [s1]) → effectiveLookup false bh us = bh) := by
  constructor
  · rintro s1 rfl
    rfl
  · intro h
    cases us with
    | error e => rfl
    | ok sites =>
      rcases sites with _ | ⟨s1, _ | ⟨s2, rest⟩⟩
      · rfl
      · exact absurd rfl (h s1)
      · rfl

/-- C9 witness: the sole listed site replaces a successful host match, and
a failing or two-element listing leaves the host match in force. -/
theorem soleTenant_fallback_shape_witness :
    effectiveLookup false (.ok siteA) (.ok [siteB]) = .ok siteB ∧
    effectiveLookup false (.ok siteA) (.error .noRows) = .ok siteA ∧
    effectiveLookup false (.ok siteA) (.ok [siteA, siteB]) = .ok siteA :=
  ⟨(soleTenant_fallback_shape (.ok siteA) (.ok [siteB])).1 siteB rfl,
   (soleTenant_fallback_shape (.ok siteA) (.error .noRows)).2
     (fun _ h => Except.noConfusion h),
   (soleTenant_fallback_shape (.ok siteA) (.ok [siteA, siteB])).2
     (fun s1 h => by simp at h)⟩

/-- C10: outside production on a non-status path with a debug-explain
cookie, when the store handle does not implement DBCloser the unchecked
type assertion panics; when it does, processing proceeds with the
instrumented handle. -/
theorem debugExplain_assertion (e : Env) (r : Request) (c : String)
    (hprod : e.prod = false) (hpath : r.path ≠ "/status")
    (hc : r.debugExplain = some c) :
    (e.dbIsCloser = false → addctx e r = .panicked) ∧
    (e.dbIsCloser = true → e.loadSite = false →
      addctx e r = .handler none (timeoutBudget r.path) true) := by
  constructor
  · intro hdb
    rw [addctx_of_ne_status e r hpath]
    simp [hprod, hc, hdb]
  · intro hdb hload
    rw [addctx_of_ne_status e r hpath]
    simp [hprod, hc, hdb, hload]

/-- C10 witness: with the cookie set, a non-DBCloser handle panics and a
DBCloser handle reaches the handler instrumented. -/
theorem debugExplain_assertion_witness :
    addctx envNoCloser ⟨"/x", "h", some ("a")⟩ = .panicked ∧
    addctx envCloser ⟨"/x", "h", some ("a")⟩ = .handler none 3 true := by
  constructor
  · exact (debugExplain_assertion envNoCloser ⟨"/x", "h", some ("a")⟩ ("a") rfl
      (by decide) rfl).1 rfl
  · exact ((debugExplain_assertion envCloser ⟨"/x", "h", some ("a")⟩ ("a") rfl
      (by decide) rfl).2 rfl rfl).trans (by decide)

end GoatCounter
